import Mathlib

/-!
Verification of the bridge-financing calculator (`calculate_bridge_financing`
in `src/app.py`).  The core function is a pure arithmetic transformation from
seven deal parameters to a result mapping; we embed it over the exact
rationals, with `Option` capturing the one runtime failure mode of the Python
source: an unguarded division by `invoice_amount` (a `ZeroDivisionError` when
`invoice_amount == 0`).  All other divisions in the source are either by
positive literal constants or are guarded.
-/

/-- The seven input parameters of `calculate_bridge_financing`, in the order
of the Python signature.  `days_outstanding` is annotated `int` in the
source, hence `ℤ`. -/
structure DealParameters where
  annual_interest_rate_pct : ℚ
  invoice_amount : ℚ
  days_outstanding : ℤ
  margin_pct : ℚ
  advance_rate_pct : ℚ
  arrangement_fee_pct : ℚ
  fixed_fee : ℚ
deriving DecidableEq

/-- The ten derived metrics computed by `calculate_bridge_financing`
(lines 24-45 of `src/app.py`). -/
structure FinancingResult where
  principal_borrowed : ℚ
  gross_margin_value : ℚ
  interest_cost : ℚ
  total_fees : ℚ
  total_financing_cost : ℚ
  net_margin_after_financing : ℚ
  margin_eaten_value : ℚ
  margin_eaten_pct_of_margin : ℚ
  financing_cost_pct_of_invoice : ℚ
  effective_annualized_cost_pct : ℚ
deriving DecidableEq

/-- Embedding of `calculate_bridge_financing` (lines 8-65 of `src/app.py`).
The source computes `interest_cost` unconditionally (line 27); the only
guarded divisions are the margin-erosion percentage (line 36, guarded by
`gross_margin_value > 0`) and the annualization factor (line 42, guarded by
`days_outstanding > 0`).  The division by `invoice_amount` (line 40) is
unguarded, so the function raises (returns `none`) exactly when
`invoice_amount = 0`. -/
def calculate_bridge_financing (p : DealParameters) : Option FinancingResult :=
  let annual_rate := p.annual_interest_rate_pct / 100
  let margin_rate := p.margin_pct / 100
  let advance_rate := p.advance_rate_pct / 100
  let arrangement_fee_rate := p.arrangement_fee_pct / 100
  let principal_borrowed := p.invoice_amount * advance_rate
  let gross_margin_value := p.invoice_amount * margin_rate
  let interest_cost := principal_borrowed * annual_rate * ((p.days_outstanding : ℚ) / 365)
  let arrangement_fee_value := p.invoice_amount * arrangement_fee_rate
  let total_fees := arrangement_fee_value + p.fixed_fee
  let total_financing_cost := interest_cost + total_fees
  let net_margin_after_financing := gross_margin_value - total_financing_cost
  let margin_eaten_value := total_financing_cost
  let margin_eaten_pct_of_margin :=
    if gross_margin_value > 0 then (margin_eaten_value / gross_margin_value) * 100 else 0
  if p.invoice_amount = 0 then
    none
  else
    let financing_cost_pct_of_invoice := (total_financing_cost / p.invoice_amount) * 100
    let effective_annualized_cost_pct :=
      if p.days_outstanding > 0 then
        financing_cost_pct_of_invoice * (365 / (p.days_outstanding : ℚ))
      else 0
    some
      { principal_borrowed := principal_borrowed
        gross_margin_value := gross_margin_value
        interest_cost := interest_cost
        total_fees := total_fees
        total_financing_cost := total_financing_cost
        net_margin_after_financing := net_margin_after_financing
        margin_eaten_value := margin_eaten_value
        margin_eaten_pct_of_margin := margin_eaten_pct_of_margin
        financing_cost_pct_of_invoice := financing_cost_pct_of_invoice
        effective_annualized_cost_pct := effective_annualized_cost_pct }

/-- The returned dict literal (lines 47-65 of `src/app.py`): the seven inputs
echoed under their own names followed by the ten derived metrics, in the
insertion order of the source. -/
def calculate_bridge_financing_dict (p : DealParameters) :
    Option (List (String × ℚ)) :=
  (calculate_bridge_financing p).map (fun r =>
    [("invoice_amount", p.invoice_amount),
     ("annual_interest_rate_pct", p.annual_interest_rate_pct),
     ("days_outstanding", (p.days_outstanding : ℚ)),
     ("margin_pct", p.margin_pct),
     ("advance_rate_pct", p.advance_rate_pct),
     ("arrangement_fee_pct", p.arrangement_fee_pct),
     ("fixed_fee", p.fixed_fee),
     ("principal_borrowed", r.principal_borrowed),
     ("gross_margin_value", r.gross_margin_value),
     ("interest_cost", r.interest_cost),
     ("total_fees", r.total_fees),
     ("total_financing_cost", r.total_financing_cost),
     ("net_margin_after_financing", r.net_margin_after_financing),
     ("margin_eaten_value", r.margin_eaten_value),
     ("margin_eaten_pct_of_margin", r.margin_eaten_pct_of_margin),
     ("financing_cost_pct_of_invoice", r.financing_cost_pct_of_invoice),
     ("effective_annualized_cost_pct", r.effective_annualized_cost_pct)])

/-- Tolerance relation for the approximately-quoted numbers of Scenario A in
the spec: `x` matches a value quoted to its last printed decimal when it is
within half a unit in the second decimal place. -/
def approxEq (x v : ℚ) : Prop := |x - v| ≤ 5 / 1000

instance (x v : ℚ) : Decidable (approxEq x v) := by
  unfold approxEq; infer_instance

/-- Helper: when `invoice_amount ≠ 0` the function returns the record of all
ten derived values in closed form. -/
theorem calculate_eq_some (p : DealParameters) (hp : p.invoice_amount ≠ 0) :
    calculate_bridge_financing p = some
      { principal_borrowed := p.invoice_amount * (p.advance_rate_pct / 100)
        gross_margin_value := p.invoice_amount * (p.margin_pct / 100)
        interest_cost := p.invoice_amount * (p.advance_rate_pct / 100) *
          (p.annual_interest_rate_pct / 100) * ((p.days_outstanding : ℚ) / 365)
        total_fees := p.invoice_amount * (p.arrangement_fee_pct / 100) + p.fixed_fee
        total_financing_cost := p.invoice_amount * (p.advance_rate_pct / 100) *
            (p.annual_interest_rate_pct / 100) * ((p.days_outstanding : ℚ) / 365) +
          (p.invoice_amount * (p.arrangement_fee_pct / 100) + p.fixed_fee)
        net_margin_after_financing := p.invoice_amount * (p.margin_pct / 100) -
          (p.invoice_amount * (p.advance_rate_pct / 100) *
              (p.annual_interest_rate_pct / 100) * ((p.days_outstanding : ℚ) / 365) +
            (p.invoice_amount * (p.arrangement_fee_pct / 100) + p.fixed_fee))
        margin_eaten_value := p.invoice_amount * (p.advance_rate_pct / 100) *
            (p.annual_interest_rate_pct / 100) * ((p.days_outstanding : ℚ) / 365) +
          (p.invoice_amount * (p.arrangement_fee_pct / 100) + p.fixed_fee)
        margin_eaten_pct_of_margin :=
          if p.invoice_amount * (p.margin_pct / 100) > 0 then
            ((p.invoice_amount * (p.advance_rate_pct / 100) *
                  (p.annual_interest_rate_pct / 100) * ((p.days_outstanding : ℚ) / 365) +
                (p.invoice_amount * (p.arrangement_fee_pct / 100) + p.fixed_fee)) /
              (p.invoice_amount * (p.margin_pct / 100))) * 100
          else 0
        financing_cost_pct_of_invoice :=
          ((p.invoice_amount * (p.advance_rate_pct / 100) *
                (p.annual_interest_rate_pct / 100) * ((p.days_outstanding : ℚ) / 365) +
              (p.invoice_amount * (p.arrangement_fee_pct / 100) + p.fixed_fee)) /
            p.invoice_amount) * 100
        effective_annualized_cost_pct :=
          if p.days_outstanding > 0 then
            ((p.invoice_amount * (p.advance_rate_pct / 100) *
                  (p.annual_interest_rate_pct / 100) * ((p.days_outstanding : ℚ) / 365) +
                (p.invoice_amount * (p.arrangement_fee_pct / 100) + p.fixed_fee)) /
              p.invoice_amount) * 100 * (365 / (p.days_outstanding : ℚ))
          else 0 } := by
  simp only [calculate_bridge_financing]
  rw [if_neg hp]

/-- Claim C1: for every input on which `calculate_bridge_financing` returns a
result, the result satisfies `total_financing_cost = interest_cost +
total_fees` and `net_margin_after_financing = gross_margin_value -
total_financing_cost` (the latter is not clamped and may be negative). -/
theorem claim1_cost_identities (p : DealParameters) (r : FinancingResult)
    (h : calculate_bridge_financing p = some r) :
    r.total_financing_cost = r.interest_cost + r.total_fees ∧
    r.net_margin_after_financing = r.gross_margin_value - r.total_financing_cost := by
  by_cases hp : p.invoice_amount = 0
  · simp [calculate_bridge_financing, hp] at h
  · rw [calculate_eq_some p hp, Option.some.injEq] at h
    subst h
    exact ⟨rfl, rfl⟩

/-- Scenario A of the spec: invoice 10000, margin 25%, rate 18%, 60 days,
advance 80%, arrangement fee 1%, no fixed fee. -/
def scenA : DealParameters :=
  { annual_interest_rate_pct := 18, invoice_amount := 10000, days_outstanding := 60,
    margin_pct := 25, advance_rate_pct := 80, arrangement_fee_pct := 1, fixed_fee := 0 }

/-- The exact result of the calculator on Scenario A. -/
def scenA_result : FinancingResult :=
  { principal_borrowed := 8000, gross_margin_value := 2500,
    interest_cost := 86400 / 365, total_fees := 100,
    total_financing_cost := 122900 / 365,
    net_margin_after_financing := 789600 / 365,
    margin_eaten_value := 122900 / 365,
    margin_eaten_pct_of_margin := 4916 / 365,
    financing_cost_pct_of_invoice := 1229 / 365,
    effective_annualized_cost_pct := 1229 / 60 }

/-- The calculator evaluated on Scenario A. -/
theorem calculate_scenA :
    calculate_bridge_financing scenA = some scenA_result := by
  rw [calculate_eq_some scenA (by norm_num [scenA])]
  norm_num [scenA, scenA_result]

/-- Witness for C1 at Scenario A's parameters. -/
theorem claim1_witness :
    calculate_bridge_financing scenA = some scenA_result ∧
    (scenA_result.total_financing_cost =
        scenA_result.interest_cost + scenA_result.total_fees ∧
      scenA_result.net_margin_after_financing =
        scenA_result.gross_margin_value - scenA_result.total_financing_cost) :=
  ⟨calculate_scenA, claim1_cost_identities scenA scenA_result calculate_scenA⟩

/-- Parameters refuting C2: a negative financing horizon with a positive rate
and positive principal. -/
def cex2 : DealParameters :=
  { annual_interest_rate_pct := 100, invoice_amount := 100, days_outstanding := -365,
    margin_pct := 0, advance_rate_pct := 100, arrangement_fee_pct := 0, fixed_fee := 0 }

/-- Counterexample to claim C2: the source computes `interest_cost`
unconditionally (line 27 of `src/app.py`), with no `days_outstanding > 0`
guard, so a negative horizon yields a negative interest cost, not `0.0`:
here days_outstanding = -365 yields interest_cost = -100. -/
theorem claim2_counterexample :
    cex2.days_outstanding ≤ 0 ∧
    (calculate_bridge_financing cex2).map FinancingResult.interest_cost = some (-100) ∧
    (-100 : ℚ) ≠ 0 := by
  refine ⟨by norm_num [cex2], ?_, by norm_num⟩
  rw [calculate_eq_some cex2 (by norm_num [cex2])]
  norm_num [cex2]

/-- Claim C2 (amended): `interest_cost = principal_borrowed *
(annual_interest_rate_pct / 100) * (days_outstanding / 365.0)` for ALL values
of `days_outstanding` (there is no guard, so a negative horizon yields a
negative interest cost); `interest_cost = 0.0` when `days_outstanding = 0`;
and `effective_annualized_cost_pct = 0.0` whenever `days_outstanding <= 0`. -/
theorem claim2_amended_interest (p : DealParameters) (r : FinancingResult)
    (h : calculate_bridge_financing p = some r) :
    r.interest_cost = p.invoice_amount * (p.advance_rate_pct / 100) *
      (p.annual_interest_rate_pct / 100) * ((p.days_outstanding : ℚ) / 365) ∧
    (p.days_outstanding = 0 → r.interest_cost = 0) ∧
    (p.days_outstanding ≤ 0 → r.effective_annualized_cost_pct = 0) := by
  by_cases hp : p.invoice_amount = 0
  · simp [calculate_bridge_financing, hp] at h
  · rw [calculate_eq_some p hp, Option.some.injEq] at h
    subst h
    refine ⟨rfl, ?_, ?_⟩
    · intro hd
      simp [hd]
    · intro hd
      have hnd : ¬ p.days_outstanding > 0 := not_lt.mpr hd
      simp [hnd]

/-- Zero-horizon parameters for the C2 witness. -/
def dayszero_params : DealParameters :=
  { annual_interest_rate_pct := 18, invoice_amount := 100, days_outstanding := 0,
    margin_pct := 10, advance_rate_pct := 80, arrangement_fee_pct := 0, fixed_fee := 0 }

/-- The calculator's result on `dayszero_params`. -/
def dayszero_result : FinancingResult :=
  { principal_borrowed := 80, gross_margin_value := 10, interest_cost := 0,
    total_fees := 0, total_financing_cost := 0, net_margin_after_financing := 10,
    margin_eaten_value := 0, margin_eaten_pct_of_margin := 0,
    financing_cost_pct_of_invoice := 0, effective_annualized_cost_pct := 0 }

/-- Witness for the amended C2 at a zero-day horizon. -/
theorem claim2_witness :
    calculate_bridge_financing dayszero_params = some dayszero_result ∧
    dayszero_result.interest_cost = 0 ∧
    dayszero_result.effective_annualized_cost_pct = 0 := by
  have h : calculate_bridge_financing dayszero_params = some dayszero_result := by
    rw [calculate_eq_some dayszero_params (by norm_num [dayszero_params])]
    norm_num [dayszero_params, dayszero_result]
  have hc := claim2_amended_interest dayszero_params dayszero_result h
  exact ⟨h, hc.2.1 rfl, hc.2.2 le_rfl⟩

/-- Claim C3: whenever `invoice_amount > 0` the function returns a result
(the unguarded division on line 40 of `src/app.py` cannot fail); the
embedding is a pure function, so no input mutation or I/O is possible. -/
theorem claim3_no_failure_when_invoice_pos (p : DealParameters)
    (h : 0 < p.invoice_amount) :
    (calculate_bridge_financing p).isSome := by
  rw [calculate_eq_some p (ne_of_gt h)]
  rfl

/-- Witness for C3 at Scenario A's parameters. -/
theorem claim3_witness : (calculate_bridge_financing scenA).isSome :=
  claim3_no_failure_when_invoice_pos scenA (by norm_num [scenA])

/-- Parameters with `invoice_amount = 0` for C8. -/
def zero_invoice_params : DealParameters :=
  { annual_interest_rate_pct := 18, invoice_amount := 0, days_outstanding := 60,
    margin_pct := 25, advance_rate_pct := 80, arrangement_fee_pct := 1, fixed_fee := 0 }

/-- Claim C8: for every input with `invoice_amount = 0` the function fails
(the unguarded division by `invoice_amount` on line 40 of `src/app.py`
raises `ZeroDivisionError`) instead of returning a result. -/
theorem claim8_zero_invoice_fails (p : DealParameters)
    (h : p.invoice_amount = 0) :
    calculate_bridge_financing p = none := by
  simp [calculate_bridge_financing, h]

/-- Witness for C8 at concrete zero-invoice parameters. -/
theorem claim8_witness : calculate_bridge_financing zero_invoice_params = none :=
  claim8_zero_invoice_fails zero_invoice_params rfl

/-- Claim C9: the calculator is deterministic — two invocations on equal
parameter records return identical results; the embedding is a pure function
of its argument, with no hidden state, randomness, or I/O. -/
theorem claim9_deterministic (p q : DealParameters) (h : p = q) :
    calculate_bridge_financing p = calculate_bridge_financing q := by
  rw [h]

/-- Witness for C9: two invocations on Scenario A agree. -/
theorem claim9_witness :
    calculate_bridge_financing scenA = calculate_bridge_financing scenA :=
  claim9_deterministic scenA scenA rfl

/-- Counterexample to claim C4: on Scenario A the effective annualized cost
is exactly 1229/60 = 20.4833..., which is not approximately 20.46 (it misses
by more than 0.02, while every other quoted figure is accurate to its last
printed decimal). -/
theorem claim4_counterexample :
    (calculate_bridge_financing scenA).map FinancingResult.effective_annualized_cost_pct
      = some (1229 / 60) ∧ ¬ approxEq (1229 / 60) (2046 / 100) := by
  constructor
  · rw [calculate_scenA]
    rfl
  · simp only [approxEq, not_le]
    rw [abs_of_nonneg (by norm_num)]
    norm_num

/-- Claim C4 (amended): on Scenario A the calculator returns
principal_borrowed = 8000, gross_margin_value = 2500, interest_cost =
8000 * 0.18 * (60/365), total_fees = 100, total_financing_cost ≈ 336.71,
net_margin_after_financing ≈ 2163.29, margin_eaten_pct_of_margin ≈ 13.47,
financing_cost_pct_of_invoice ≈ 3.3671, and effective_annualized_cost_pct
≈ 20.48 (exactly 1229/60; the spec's 20.46 is corrected to 20.48). -/
theorem claim4_amended_scenarioA :
    (calculate_bridge_financing scenA).map FinancingResult.principal_borrowed
      = some 8000 ∧
    (calculate_bridge_financing scenA).map FinancingResult.gross_margin_value
      = some 2500 ∧
    (calculate_bridge_financing scenA).map FinancingResult.interest_cost
      = some (8000 * (18 / 100) * (60 / 365)) ∧
    (calculate_bridge_financing scenA).map FinancingResult.total_fees
      = some 100 ∧
    (calculate_bridge_financing scenA).map FinancingResult.total_financing_cost
      = some (122900 / 365) ∧ approxEq (122900 / 365) (33671 / 100) ∧
    (calculate_bridge_financing scenA).map FinancingResult.net_margin_after_financing
      = some (789600 / 365) ∧ approxEq (789600 / 365) (216329 / 100) ∧
    (calculate_bridge_financing scenA).map FinancingResult.margin_eaten_pct_of_margin
      = some (4916 / 365) ∧ approxEq (4916 / 365) (1347 / 100) ∧
    (calculate_bridge_financing scenA).map FinancingResult.financing_cost_pct_of_invoice
      = some (1229 / 365) ∧ approxEq (1229 / 365) (33671 / 10000) ∧
    (calculate_bridge_financing scenA).map FinancingResult.effective_annualized_cost_pct
      = some (1229 / 60) ∧ approxEq (1229 / 60) (2048 / 100) := by
  simp only [calculate_scenA, Option.map_some', scenA_result]
  norm_num [approxEq, abs_le]

/-- Parameters refuting C5: a positive interest rate but a zero advance
rate, so the principal is zero and the interest cost does not depend on the
horizon. -/
def cex5a : DealParameters :=
  { annual_interest_rate_pct := 18, invoice_amount := 100, days_outstanding := 10,
    margin_pct := 25, advance_rate_pct := 0, arrangement_fee_pct := 0, fixed_fee := 0 }

/-- `cex5a` with a strictly larger horizon; every other field is equal. -/
def cex5b : DealParameters := { cex5a with days_outstanding := 20 }

/-- The common result of the calculator on `cex5a` and `cex5b`. -/
def cex5_result : FinancingResult :=
  { principal_borrowed := 0, gross_margin_value := 25, interest_cost := 0,
    total_fees := 0, total_financing_cost := 0, net_margin_after_financing := 25,
    margin_eaten_value := 0, margin_eaten_pct_of_margin := 0,
    financing_cost_pct_of_invoice := 0, effective_annualized_cost_pct := 0 }

/-- Counterexample to claim C5: with annual_interest_rate_pct = 18 > 0 but
advance_rate_pct = 0, raising days_outstanding from 10 to 20 leaves
interest_cost, total_financing_cost and net_margin_after_financing all
unchanged, so none of the claimed strict inequalities holds. -/
theorem claim5_counterexample :
    cex5b = { cex5a with days_outstanding := 20 } ∧
    0 < cex5a.annual_interest_rate_pct ∧
    cex5a.days_outstanding < cex5b.days_outstanding ∧
    calculate_bridge_financing cex5a = some cex5_result ∧
    calculate_bridge_financing cex5b = some cex5_result := by
  have ha : calculate_bridge_financing cex5a = some cex5_result := by
    rw [calculate_eq_some cex5a (by norm_num [cex5a])]
    norm_num [cex5a, cex5_result]
  have hb : calculate_bridge_financing cex5b = some cex5_result := by
    rw [calculate_eq_some cex5b (by norm_num [cex5b, cex5a])]
    norm_num [cex5b, cex5a, cex5_result]
  exact ⟨rfl, by norm_num [cex5a], by norm_num [cex5a, cex5b], ha, hb⟩

/-- Claim C5 (amended): for inputs differing only in `days_outstanding`,
with `annual_interest_rate_pct > 0` AND `invoice_amount > 0` AND
`advance_rate_pct > 0` (so that the principal is positive, which the
original claim omitted), a strictly larger horizon yields strictly larger
interest_cost and total_financing_cost and strictly smaller
net_margin_after_financing. -/
theorem claim5_amended_monotonicity (p : DealParameters) (d1 d2 : ℤ)
    (r1 r2 : FinancingResult)
    (hinv : 0 < p.invoice_amount) (hadv : 0 < p.advance_rate_pct)
    (hrate : 0 < p.annual_interest_rate_pct) (hd : d1 < d2)
    (h1 : calculate_bridge_financing { p with days_outstanding := d1 } = some r1)
    (h2 : calculate_bridge_financing { p with days_outstanding := d2 } = some r2) :
    r1.interest_cost < r2.interest_cost ∧
    r1.total_financing_cost < r2.total_financing_cost ∧
    r2.net_margin_after_financing < r1.net_margin_after_financing := by
  rw [calculate_eq_some { p with days_outstanding := d1 } (ne_of_gt hinv),
    Option.some.injEq] at h1
  rw [calculate_eq_some { p with days_outstanding := d2 } (ne_of_gt hinv),
    Option.some.injEq] at h2
  subst h1
  subst h2
  dsimp only
  have hA : 0 < p.invoice_amount * (p.advance_rate_pct / 100) *
      (p.annual_interest_rate_pct / 100) :=
    mul_pos (mul_pos hinv (div_pos hadv (by norm_num)))
      (div_pos hrate (by norm_num))
  have hx : ((d1 : ℚ) / 365) < ((d2 : ℚ) / 365) := by
    have : (d1 : ℚ) < (d2 : ℚ) := by exact_mod_cast hd
    gcongr
  have hint : p.invoice_amount * (p.advance_rate_pct / 100) *
        (p.annual_interest_rate_pct / 100) * ((d1 : ℚ) / 365) <
      p.invoice_amount * (p.advance_rate_pct / 100) *
        (p.annual_interest_rate_pct / 100) * ((d2 : ℚ) / 365) :=
    mul_lt_mul_of_pos_left hx hA
  exact ⟨hint, by linarith, by linarith⟩

/-- Result of the calculator on Scenario A with a 10-day horizon. -/
def mono_r1 : FinancingResult :=
  { principal_borrowed := 8000, gross_margin_value := 2500,
    interest_cost := 14400 / 365, total_fees := 100,
    total_financing_cost := 50900 / 365,
    net_margin_after_financing := 861600 / 365,
    margin_eaten_value := 50900 / 365,
    margin_eaten_pct_of_margin := 2036 / 365,
    financing_cost_pct_of_invoice := 509 / 365,
    effective_annualized_cost_pct := 509 / 10 }

/-- Result of the calculator on Scenario A with a 20-day horizon. -/
def mono_r2 : FinancingResult :=
  { principal_borrowed := 8000, gross_margin_value := 2500,
    interest_cost := 28800 / 365, total_fees := 100,
    total_financing_cost := 65300 / 365,
    net_margin_after_financing := 847200 / 365,
    margin_eaten_value := 65300 / 365,
    margin_eaten_pct_of_margin := 2612 / 365,
    financing_cost_pct_of_invoice := 653 / 365,
    effective_annualized_cost_pct := 653 / 20 }

/-- Witness for the amended C5 at Scenario A with horizons 10 and 20. -/
theorem claim5_witness :
    calculate_bridge_financing { scenA with days_outstanding := 10 } = some mono_r1 ∧
    calculate_bridge_financing { scenA with days_outstanding := 20 } = some mono_r2 ∧
    mono_r1.interest_cost < mono_r2.interest_cost ∧
    mono_r1.total_financing_cost < mono_r2.total_financing_cost ∧
    mono_r2.net_margin_after_financing < mono_r1.net_margin_after_financing := by
  have h1 : calculate_bridge_financing { scenA with days_outstanding := 10 }
      = some mono_r1 := by
    rw [calculate_eq_some _ (by norm_num [scenA])]
    norm_num [scenA, mono_r1]
  have h2 : calculate_bridge_financing { scenA with days_outstanding := 20 }
      = some mono_r2 := by
    rw [calculate_eq_some _ (by norm_num [scenA])]
    norm_num [scenA, mono_r2]
  have hc := claim5_amended_monotonicity scenA 10 20 mono_r1 mono_r2
    (by norm_num [scenA]) (by norm_num [scenA]) (by norm_num [scenA])
    (by norm_num) h1 h2
  exact ⟨h1, h2, hc.1, hc.2.1, hc.2.2⟩

/-- Claim C6: whenever the calculator returns a result, a zero margin
percentage yields `margin_eaten_pct_of_margin = 0.0` (the guard on line 37
of `src/app.py` prevents the division), and a positive gross margin yields
the quotient formula `(margin_eaten_value / gross_margin_value) * 100`. -/
theorem claim6_margin_guard (p : DealParameters) (r : FinancingResult)
    (h : calculate_bridge_financing p = some r) :
    (p.margin_pct = 0 → r.margin_eaten_pct_of_margin = 0) ∧
    (0 < r.gross_margin_value →
      r.margin_eaten_pct_of_margin =
        r.margin_eaten_value / r.gross_margin_value * 100) := by
  by_cases hp : p.invoice_amount = 0
  · simp [calculate_bridge_financing, hp] at h
  · rw [calculate_eq_some p hp, Option.some.injEq] at h
    subst h
    dsimp only
    constructor
    · intro hm
      norm_num [hm]
    · intro hg
      rw [if_pos hg]

/-- Scenario C of the spec: margin_pct = 0 and invoice_amount = 5000. -/
def scenC : DealParameters :=
  { annual_interest_rate_pct := 18, invoice_amount := 5000, days_outstanding := 60,
    margin_pct := 0, advance_rate_pct := 80, arrangement_fee_pct := 1, fixed_fee := 0 }

/-- The exact result of the calculator on Scenario C: the financing cost is
positive (12290/73 ≈ 168.36) yet the margin-erosion percentage is 0. -/
def scenC_result : FinancingResult :=
  { principal_borrowed := 4000, gross_margin_value := 0,
    interest_cost := 8640 / 73, total_fees := 50,
    total_financing_cost := 12290 / 73,
    net_margin_after_financing := -(12290 / 73),
    margin_eaten_value := 12290 / 73,
    margin_eaten_pct_of_margin := 0,
    financing_cost_pct_of_invoice := 1229 / 365,
    effective_annualized_cost_pct := 1229 / 60 }

/-- Witness for C6 at Scenario C. -/
theorem claim6_witness :
    calculate_bridge_financing scenC = some scenC_result ∧
    scenC_result.margin_eaten_pct_of_margin = 0 := by
  have h : calculate_bridge_financing scenC = some scenC_result := by
    rw [calculate_eq_some scenC (by norm_num [scenC])]
    norm_num [scenC, scenC_result]
  exact ⟨h, (claim6_margin_guard scenC scenC_result h).1 rfl⟩

/-- The 17 field names of the returned mapping, in the source's insertion
order: the seven echoed inputs followed by the ten derived metrics. -/
def spec_result_keys : List String :=
  ["invoice_amount", "annual_interest_rate_pct", "days_outstanding", "margin_pct",
   "advance_rate_pct", "arrangement_fee_pct", "fixed_fee", "principal_borrowed",
   "gross_margin_value", "interest_cost", "total_fees", "total_financing_cost",
   "net_margin_after_financing", "margin_eaten_value", "margin_eaten_pct_of_margin",
   "financing_cost_pct_of_invoice", "effective_annualized_cost_pct"]

/-- Claim C7: whenever the calculator returns a mapping, its keys are
exactly the 17 names of the spec (seven echoed inputs plus ten derived
metrics), each occurring exactly once. -/
theorem claim7_result_keys (p : DealParameters) (d : List (String × ℚ))
    (h : calculate_bridge_financing_dict p = some d) :
    d.map Prod.fst = spec_result_keys ∧ d.length = 17 ∧
    (d.map Prod.fst).Nodup := by
  unfold calculate_bridge_financing_dict at h
  cases hc : calculate_bridge_financing p with
  | none =>
    rw [hc] at h
    simp at h
  | some r =>
    rw [hc] at h
    simp only [Option.map_some', Option.some.injEq] at h
    subst h
    refine ⟨rfl, rfl, ?_⟩
    show spec_result_keys.Nodup
    decide

/-- The mapping returned on Scenario A. -/
def scenA_dict : List (String × ℚ) :=
  [("invoice_amount", 10000), ("annual_interest_rate_pct", 18),
   ("days_outstanding", 60), ("margin_pct", 25), ("advance_rate_pct", 80),
   ("arrangement_fee_pct", 1), ("fixed_fee", 0), ("principal_borrowed", 8000),
   ("gross_margin_value", 2500), ("interest_cost", 86400 / 365),
   ("total_fees", 100), ("total_financing_cost", 122900 / 365),
   ("net_margin_after_financing", 789600 / 365),
   ("margin_eaten_value", 122900 / 365),
   ("margin_eaten_pct_of_margin", 4916 / 365),
   ("financing_cost_pct_of_invoice", 1229 / 365),
   ("effective_annualized_cost_pct", 1229 / 60)]

/-- Witness for C7 at Scenario A. -/
theorem claim7_witness :
    calculate_bridge_financing_dict scenA = some scenA_dict ∧
    scenA_dict.map Prod.fst = spec_result_keys ∧ scenA_dict.length = 17 ∧
    (scenA_dict.map Prod.fst).Nodup := by
  have h : calculate_bridge_financing_dict scenA = some scenA_dict := by
    unfold calculate_bridge_financing_dict
    rw [calculate_scenA]
    norm_num [scenA, scenA_result, scenA_dict]
  have hc := claim7_result_keys scenA scenA_dict h
  exact ⟨h, hc.1, hc.2.1, hc.2.2⟩

/-- Claim C10: with all seven parameters nonnegative and a positive invoice
amount, every derived metric except `net_margin_after_financing` is
nonnegative. -/
theorem claim10_nonneg_outputs (p : DealParameters) (r : FinancingResult)
    (h : calculate_bridge_financing p = some r)
    (hinv : 0 < p.invoice_amount) (hrate : 0 ≤ p.annual_interest_rate_pct)
    (hdays : 0 ≤ p.days_outstanding) (hmargin : 0 ≤ p.margin_pct)
    (hadv : 0 ≤ p.advance_rate_pct) (harr : 0 ≤ p.arrangement_fee_pct)
    (hfix : 0 ≤ p.fixed_fee) :
    0 ≤ r.principal_borrowed ∧ 0 ≤ r.gross_margin_value ∧ 0 ≤ r.interest_cost ∧
    0 ≤ r.total_fees ∧ 0 ≤ r.total_financing_cost ∧ 0 ≤ r.margin_eaten_value ∧
    0 ≤ r.margin_eaten_pct_of_margin ∧ 0 ≤ r.financing_cost_pct_of_invoice ∧
    0 ≤ r.effective_annualized_cost_pct := by
  rw [calculate_eq_some p (ne_of_gt hinv), Option.some.injEq] at h
  subst h
  dsimp only
  have hdq : (0 : ℚ) ≤ (p.days_outstanding : ℚ) := by exact_mod_cast hdays
  have hprin : 0 ≤ p.invoice_amount * (p.advance_rate_pct / 100) :=
    mul_nonneg hinv.le (div_nonneg hadv (by norm_num))
  have hgross : 0 ≤ p.invoice_amount * (p.margin_pct / 100) :=
    mul_nonneg hinv.le (div_nonneg hmargin (by norm_num))
  have hint : 0 ≤ p.invoice_amount * (p.advance_rate_pct / 100) *
      (p.annual_interest_rate_pct / 100) * ((p.days_outstanding : ℚ) / 365) :=
    mul_nonneg (mul_nonneg hprin (div_nonneg hrate (by norm_num)))
      (div_nonneg hdq (by norm_num))
  have hfees : 0 ≤ p.invoice_amount * (p.arrangement_fee_pct / 100) + p.fixed_fee :=
    add_nonneg (mul_nonneg hinv.le (div_nonneg harr (by norm_num))) hfix
  have htot : 0 ≤ p.invoice_amount * (p.advance_rate_pct / 100) *
        (p.annual_interest_rate_pct / 100) * ((p.days_outstanding : ℚ) / 365) +
      (p.invoice_amount * (p.arrangement_fee_pct / 100) + p.fixed_fee) :=
    add_nonneg hint hfees
  have hfcp : 0 ≤ (p.invoice_amount * (p.advance_rate_pct / 100) *
          (p.annual_interest_rate_pct / 100) * ((p.days_outstanding : ℚ) / 365) +
        (p.invoice_amount * (p.arrangement_fee_pct / 100) + p.fixed_fee)) /
        p.invoice_amount * 100 :=
    mul_nonneg (div_nonneg htot hinv.le) (by norm_num)
  refine ⟨hprin, hgross, hint, hfees, htot, htot, ?_, hfcp, ?_⟩
  · split
    · next hg => exact mul_nonneg (div_nonneg htot (le_of_lt hg)) (by norm_num)
    · next => exact le_refl 0
  · split
    · next hdpos =>
      refine mul_nonneg hfcp (div_nonneg (by norm_num) ?_)
      have : (0 : ℤ) ≤ p.days_outstanding := le_of_lt hdpos
      exact_mod_cast this
    · next => exact le_refl 0

/-- Witness for C10 at Scenario A. -/
theorem claim10_witness :
    calculate_bridge_financing scenA = some scenA_result ∧
    (0 ≤ scenA_result.principal_borrowed ∧ 0 ≤ scenA_result.gross_margin_value ∧
     0 ≤ scenA_result.interest_cost ∧ 0 ≤ scenA_result.total_fees ∧
     0 ≤ scenA_result.total_financing_cost ∧ 0 ≤ scenA_result.margin_eaten_value ∧
     0 ≤ scenA_result.margin_eaten_pct_of_margin ∧
     0 ≤ scenA_result.financing_cost_pct_of_invoice ∧
     0 ≤ scenA_result.effective_annualized_cost_pct) :=
  ⟨calculate_scenA,
    claim10_nonneg_outputs scenA scenA_result calculate_scenA
      (by norm_num [scenA]) (by norm_num [scenA]) (by norm_num [scenA])
      (by norm_num [scenA]) (by norm_num [scenA]) (by norm_num [scenA])
      (by norm_num [scenA])⟩
